import Mathlib

/-
Verification development for the L3P (Low-Profile Performance Profile)
system monitor.  The definitions below are a shallow embedding of the
Python sources under src/: pure helpers become Lean functions, the
psutil OS-query layer becomes an explicit environment whose entries are
`Except`-valued (an `Except.error` models a raised exception), and the
threaded loops of the coordinator, the tray refresh task and the profile
window become explicit small-step transition systems.  Real-valued
quantities (floats in the source) are modelled as rationals.
-/

/-! ## Python numeric and formatting primitives -/

/-- Truncation of a rational toward zero, as Python's int() conversion applied
to a float. -/
def pyInt (q : ℚ) : ℤ := if 0 ≤ q then ⌊q⌋ else ⌈q⌉

/-- Rounding of a rational to the nearest integer with ties to even, the
rounding mode Python's fixed-point string formatting uses. -/
def roundHalfEven (q : ℚ) : ℤ :=
  let n := ⌊q⌋
  let f := q - (n : ℚ)
  if f < 1/2 then n
  else if 1/2 < f then n + 1
  else if n % 2 = 0 then n else n + 1

/-- Rendering of a rational with exactly one decimal digit, as Python's
format specifier `.1f` (idealised over exact rationals). -/
def fmt1 (q : ℚ) : String :=
  let r := roundHalfEven (q * 10)
  let sign := if r < 0 then "-" else ""
  let a := r.natAbs
  sign ++ toString (a / 10) ++ "." ++ toString (a % 10)

/-! ## format_bytes and format_uptime (src/src/metrics.py) -/

/-- The unit loop of `format_bytes`: try each unit in order, dividing the
value by 1024 each time the 1024 threshold is reached, and fall back to
"TB" when the unit list is exhausted. -/
def formatBytesLoop : ℚ → List String → String
  | x, [] => fmt1 x ++ " TB"
  | x, unit :: rest =>
      if x < 1024 then fmt1 x ++ " " ++ unit else formatBytesLoop (x / 1024) rest

/-- Embedding of `format_bytes` from src/src/metrics.py: format a byte count
as a human-readable string over the units B, KB, MB, GB, TB. -/
def format_bytes (bytes_value : ℚ) : String :=
  formatBytesLoop bytes_value ["B", "KB", "MB", "GB"]

/-- The parts list built by `format_uptime`: one entry per nonzero unit
(days, hours, minutes), with the seconds entry appended when seconds is
nonzero or the list would otherwise be empty.  Division and remainder are
floor-based, as Python's divmod. -/
def uptimeParts (n : ℤ) : List String :=
  let days := Int.fdiv n 86400
  let remainder0 := Int.fmod n 86400
  let hours := Int.fdiv remainder0 3600
  let remainder1 := Int.fmod remainder0 3600
  let minutes := Int.fdiv remainder1 60
  let secs := Int.fmod remainder1 60
  let parts0 : List String := if days > 0 then [toString days ++ "d"] else []
  let parts1 := parts0 ++ (if hours > 0 then [toString hours ++ "h"] else [])
  let parts2 := parts1 ++ (if minutes > 0 then [toString minutes ++ "m"] else [])
  if secs > 0 ∨ parts2 = [] then parts2 ++ [toString secs ++ "s"] else parts2

/-- Embedding of `format_uptime` from src/src/metrics.py: format a number of
seconds as a human-readable uptime string. -/
def format_uptime (seconds : ℚ) : String :=
  String.intercalate " " (uptimeParts (pyInt seconds))

/-! ## Metric record types (the dataclasses of src/src/metrics.py) -/

/-- CPU usage metrics. -/
structure CPUMetrics where
  total_percent : ℚ
  per_core_percent : List ℚ
  frequency_mhz : ℚ
  core_count : ℤ
  thread_count : ℤ
deriving DecidableEq

/-- Memory usage metrics. -/
structure MemoryMetrics where
  total_bytes : ℤ
  available_bytes : ℤ
  used_percent : ℚ
  swap_total_bytes : ℤ
  swap_used_percent : ℚ
deriving DecidableEq

/-- Disk usage metrics. -/
structure DiskMetrics where
  total_bytes : ℤ
  used_percent : ℚ
  read_bytes : ℤ
  write_bytes : ℤ
  mount_point : String
deriving DecidableEq

/-- Network I/O metrics. -/
structure NetworkMetrics where
  bytes_sent : ℤ
  bytes_recv : ℤ
  packets_sent : ℤ
  packets_recv : ℤ
deriving DecidableEq

/-- Process-related metrics. -/
structure ProcessMetrics where
  total_processes : ℤ
  current_cpu_percent : ℚ
  current_memory_percent : ℚ
  current_threads : ℤ
deriving DecidableEq

/-- System information.  Timestamps are epoch seconds. -/
structure SystemInfo where
  boot_time : ℚ
  uptime_seconds : ℚ
  platform : String
  hostname : String
deriving DecidableEq

/-! ## The psutil environment

Each OS query of src/src/metrics.py is one entry; `Except.error` models the
query raising an exception, which the collector's try/except blocks catch. -/

/-- Result of psutil.cpu_freq(), when not None. -/
structure CpuFreqInfo where
  current : ℚ
deriving DecidableEq

/-- Result of psutil.virtual_memory(). -/
structure VMemInfo where
  total : ℤ
  available : ℤ
  percent : ℚ
deriving DecidableEq

/-- Result of psutil.swap_memory(). -/
structure SwapInfo where
  total : ℤ
  percent : ℚ
deriving DecidableEq

/-- Result of psutil.disk_usage(path). -/
structure DiskUsageInfo where
  total : ℤ
  percent : ℚ
deriving DecidableEq

/-- Result of psutil.disk_io_counters(), when not None. -/
structure DiskCounters where
  read_bytes : ℤ
  write_bytes : ℤ
deriving DecidableEq

/-- Result of psutil.net_io_counters(). -/
structure NetCounters where
  bytes_sent : ℤ
  bytes_recv : ℤ
  packets_sent : ℤ
  packets_recv : ℤ
deriving DecidableEq

deriving instance DecidableEq for Except

/-- One sampling instant of the OS-query layer: every psutil/platform call
the collector makes, with `Except.error` modelling a raised exception. -/
structure PsutilEnv where
  cpu_freq : Except String (Option CpuFreqInfo)
  cpu_percent : Except String ℚ
  cpu_percent_percpu : Except String (List ℚ)
  cpu_count_physical : Except String (Option ℤ)
  cpu_count_logical : Except String (Option ℤ)
  virtual_memory : Except String VMemInfo
  swap_memory : Except String SwapInfo
  disk_usage : Except String DiskUsageInfo
  disk_io_counters : Except String (Option DiskCounters)
  net_io_counters : Except String NetCounters
  pids_count : Except String ℤ
  proc_cpu_percent : Except String ℚ
  proc_memory_percent : Except String ℚ
  proc_thread_count : Except String ℤ
  boot_time : Except String ℚ
  now : ℚ
  platform_platform : Except String String
  platform_node : Except String String
deriving DecidableEq

/-- The query raised an exception. -/
def queryFails {α : Type} (x : Except String α) : Prop :=
  ∃ e, x = Except.error e

/-- Python's `x or 1` applied to an optional count: None and 0 are falsy. -/
def pyOrOne (o : Option ℤ) : ℤ :=
  match o with
  | none => 1
  | some k => if k = 0 then 1 else k

/-! ## MetricsCollector (src/src/metrics.py) -/

/-- Construction-time state of the MetricsCollector: the OS type and the
memoized system drive. -/
structure MetricsCollector where
  os_type : String
  system_drive : String
deriving DecidableEq

/-- Embedding of MetricsCollector.__init__ together with _get_system_drive:
on Windows the drive is the SystemDrive environment variable (default "C:")
plus a backslash, otherwise "/". -/
def MetricsCollector.init (osType : String) (systemDriveVar : Option String) :
    MetricsCollector :=
  { os_type := osType
    system_drive :=
      if osType = "Windows" then (systemDriveVar.getD "C:") ++ "\\" else "/" }

/-- Embedding of MetricsCollector.get_cpu_metrics: the try block queries
cpu_freq, cpu_percent (total and per-cpu) and the two core counts; any
exception yields CPUMetrics(0.0, [], 0.0, 1, 1). -/
def MetricsCollector.get_cpu_metrics (_c : MetricsCollector) (env : PsutilEnv) :
    CPUMetrics :=
  match (do
    let freq ← env.cpu_freq
    let frequency := match freq with | some f => f.current | none => 0
    let total ← env.cpu_percent
    let perCore ← env.cpu_percent_percpu
    let phys ← env.cpu_count_physical
    let logi ← env.cpu_count_logical
    pure { total_percent := total
           per_core_percent := perCore
           frequency_mhz := frequency
           core_count := pyOrOne phys
           thread_count := pyOrOne logi } : Except String CPUMetrics) with
  | .ok m => m
  | .error _ =>
      { total_percent := 0, per_core_percent := [], frequency_mhz := 0
        core_count := 1, thread_count := 1 }

/-- Embedding of MetricsCollector.get_memory_metrics: any exception yields
MemoryMetrics(0, 0, 0.0, 0, 0.0). -/
def MetricsCollector.get_memory_metrics (_c : MetricsCollector)
    (env : PsutilEnv) : MemoryMetrics :=
  match (do
    let vmem ← env.virtual_memory
    let swap ← env.swap_memory
    pure { total_bytes := vmem.total
           available_bytes := vmem.available
           used_percent := vmem.percent
           swap_total_bytes := swap.total
           swap_used_percent := swap.percent } : Except String MemoryMetrics) with
  | .ok m => m
  | .error _ =>
      { total_bytes := 0, available_bytes := 0, used_percent := 0
        swap_total_bytes := 0, swap_used_percent := 0 }

/-- Embedding of MetricsCollector.get_disk_metrics: any exception yields
DiskMetrics(0, 0.0, 0, 0, system_drive); a None disk_io_counters result
defaults the two I/O byte counters to 0. -/
def MetricsCollector.get_disk_metrics (c : MetricsCollector) (env : PsutilEnv) :
    DiskMetrics :=
  match (do
    let disk ← env.disk_usage
    let diskCtr ← env.disk_io_counters
    pure { total_bytes := disk.total
           used_percent := disk.percent
           read_bytes := match diskCtr with | some d => d.read_bytes | none => 0
           write_bytes := match diskCtr with | some d => d.write_bytes | none => 0
           mount_point := c.system_drive } : Except String DiskMetrics) with
  | .ok m => m
  | .error _ =>
      { total_bytes := 0, used_percent := 0, read_bytes := 0, write_bytes := 0
        mount_point := c.system_drive }

/-- Embedding of MetricsCollector.get_network_metrics: any exception yields
NetworkMetrics(0, 0, 0, 0). -/
def MetricsCollector.get_network_metrics (_c : MetricsCollector)
    (env : PsutilEnv) : NetworkMetrics :=
  match (do
    let net ← env.net_io_counters
    pure { bytes_sent := net.bytes_sent
           bytes_recv := net.bytes_recv
           packets_sent := net.packets_sent
           packets_recv := net.packets_recv } : Except String NetworkMetrics) with
  | .ok m => m
  | .error _ =>
      { bytes_sent := 0, bytes_recv := 0, packets_sent := 0, packets_recv := 0 }

/-- Embedding of MetricsCollector.get_process_metrics: any exception yields
ProcessMetrics(0, 0.0, 0.0, 0). -/
def MetricsCollector.get_process_metrics (_c : MetricsCollector)
    (env : PsutilEnv) : ProcessMetrics :=
  match (do
    let pids ← env.pids_count
    let cpu ← env.proc_cpu_percent
    let mem ← env.proc_memory_percent
    let thr ← env.proc_thread_count
    pure { total_processes := pids
           current_cpu_percent := cpu
           current_memory_percent := mem
           current_threads := thr } : Except String ProcessMetrics) with
  | .ok m => m
  | .error _ =>
      { total_processes := 0, current_cpu_percent := 0
        current_memory_percent := 0, current_threads := 0 }

/-- Embedding of MetricsCollector.get_system_info: on success the boot time
is the queried epoch and the uptime is now minus boot time; any exception
yields SystemInfo(now, 0.0, "Unknown", "Unknown"). -/
def MetricsCollector.get_system_info (_c : MetricsCollector)
    (env : PsutilEnv) : SystemInfo :=
  match (do
    let boot ← env.boot_time
    let plat ← env.platform_platform
    let node ← env.platform_node
    pure { boot_time := boot
           uptime_seconds := env.now - boot
           platform := plat
           hostname := node } : Except String SystemInfo) with
  | .ok m => m
  | .error _ =>
      { boot_time := env.now, uptime_seconds := 0
        platform := "Unknown", hostname := "Unknown" }

/-- Embedding of MetricsCollector.get_quick_metrics: a single try block
queries cpu_percent, virtual_memory and disk_usage; any exception in any of
the three yields (0.0, 0.0, 0.0). -/
def MetricsCollector.get_quick_metrics (_c : MetricsCollector)
    (env : PsutilEnv) : ℚ × ℚ × ℚ :=
  match (do
    let cpu ← env.cpu_percent
    let mem ← env.virtual_memory
    let disk ← env.disk_usage
    pure (cpu, mem.percent, disk.percent) : Except String (ℚ × ℚ × ℚ)) with
  | .ok v => v
  | .error _ => (0, 0, 0)

/-! ## Unit bookkeeping for format_bytes -/

/-- Number of 1024-divisions format_bytes performs on a given input, i.e.
the index of the unit it selects (0 = B, 1 = KB, 2 = MB, 3 = GB, 4 = TB). -/
def bytesUnit (x : ℚ) : ℕ :=
  if x < 1024 then 0
  else if x < 1024 ^ 2 then 1
  else if x < 1024 ^ 3 then 2
  else if x < 1024 ^ 4 then 3
  else 4

/-- Name of the unit at a given index. -/
def unitName : ℕ → String
  | 0 => "B"
  | 1 => "KB"
  | 2 => "MB"
  | 3 => "GB"
  | _ => "TB"

theorem unitName_four : unitName 4 = "TB" := rfl

/-- Characterization of format_bytes: the output is the input divided by
1024 once per selected unit index, rendered with one decimal, followed by
the unit's name. -/
theorem formatBytes_char (x : ℚ) :
    format_bytes x = fmt1 (x / 1024 ^ bytesUnit x) ++ " " ++ unitName (bytesUnit x) := by
  have h0 : (0:ℚ) < 1024 := by norm_num
  have t1 : x / 1024 < 1024 ↔ x < 1024 ^ 2 := by rw [div_lt_iff₀ h0]; norm_num
  have t2 : x / 1024 / 1024 < 1024 ↔ x < 1024 ^ 3 := by
    rw [div_lt_iff₀ h0, div_lt_iff₀ h0]; norm_num
  have t3 : x / 1024 / 1024 / 1024 < 1024 ↔ x < 1024 ^ 4 := by
    rw [div_lt_iff₀ h0, div_lt_iff₀ h0, div_lt_iff₀ h0]; norm_num
  have a1 : x / 1024 = x / 1024 ^ 1 := by ring
  have a2 : x / 1024 / 1024 = x / 1024 ^ 2 := by ring
  have a3 : x / 1024 / 1024 / 1024 = x / 1024 ^ 3 := by ring
  have a4 : x / 1024 / 1024 / 1024 / 1024 = x / 1024 ^ 4 := by ring
  unfold format_bytes bytesUnit
  by_cases h1 : x < 1024
  · simp only [if_pos h1, formatBytesLoop, pow_zero, div_one, unitName]
  · by_cases h2 : x < 1024 ^ 2
    · simp only [if_neg h1, if_pos h2, formatBytesLoop, if_pos (t1.mpr h2), unitName]
      rw [a1]
    · have n1 : ¬ x / 1024 < 1024 := fun hc => h2 (t1.mp hc)
      by_cases h3 : x < 1024 ^ 3
      · simp only [if_neg h1, if_neg h2, if_pos h3, formatBytesLoop, if_neg n1,
          if_pos (t2.mpr h3), unitName]
        rw [a2]
      · have n2 : ¬ x / 1024 / 1024 < 1024 := fun hc => h3 (t2.mp hc)
        by_cases h4 : x < 1024 ^ 4
        · simp only [if_neg h1, if_neg h2, if_neg h3, if_pos h4, formatBytesLoop,
            if_neg n1, if_neg n2, if_pos (t3.mpr h4), unitName]
          rw [a3]
        · have n3 : ¬ x / 1024 / 1024 / 1024 < 1024 := fun hc => h4 (t3.mp hc)
          simp only [if_neg h1, if_neg h2, if_neg h3, if_neg h4, formatBytesLoop,
            if_neg n1, if_neg n2, if_neg n3, unitName_four]
          rw [a4, String.append_assoc]
          congr 1

/-- The unit index selected by format_bytes is monotone in the byte count. -/
theorem bytesUnit_mono {a b : ℚ} (hab : a ≤ b) : bytesUnit a ≤ bytesUnit b := by
  unfold bytesUnit
  split_ifs
  all_goals first | (exfalso; linarith) | norm_num

/-- Spec-side description of the uptime parts list: one part per unit, a
unit's part present exactly when its value is positive, except that the
seconds part is also present when every other part is absent. -/
def uptimePartsSpec (d h m s : ℤ) : List String :=
  let base := (if d > 0 then [toString d ++ "d"] else []) ++
              (if h > 0 then [toString h ++ "h"] else []) ++
              (if m > 0 then [toString m ++ "m"] else [])
  if s > 0 ∨ base = [] then base ++ [toString s ++ "s"] else base

/-- C6: format_bytes maps 0 to "0.0 B", 1024 to "1.0 KB" and 1024*1024 to
"1.0 MB"; and on every input that reaches the largest unit the value has
been divided by 1024 exactly four times (once per unit B, KB, MB, GB whose
1024 threshold was reached) before the "TB" fallback renders it. -/
theorem c6_format_bytes_values :
    format_bytes 0 = "0.0 B" ∧ format_bytes 1024 = "1.0 KB" ∧
      format_bytes (1024 * 1024) = "1.0 MB" ∧
      ∀ x : ℚ, 1024 ^ 4 ≤ x → format_bytes x = fmt1 (x / 1024 ^ 4) ++ " TB" := by
  refine ⟨?_, ?_, ?_, ?_⟩
  · norm_num [format_bytes, formatBytesLoop, fmt1, roundHalfEven]
    decide
  · norm_num [format_bytes, formatBytesLoop, fmt1, roundHalfEven]
    decide
  · norm_num [format_bytes, formatBytesLoop, fmt1, roundHalfEven]
    decide
  · intro x hx
    have hb : bytesUnit x = 4 := by
      have c1 : ¬ x < 1024 := by norm_num at hx ⊢; linarith
      have c2 : ¬ x < 1024 ^ 2 := by norm_num at hx ⊢; linarith
      have c3 : ¬ x < 1024 ^ 3 := by norm_num at hx ⊢; linarith
      have c4 : ¬ x < 1024 ^ 4 := by norm_num at hx ⊢; linarith
      unfold bytesUnit
      simp [c1, c2, c3, c4]
    have hc := formatBytes_char x
    rw [hb] at hc
    rw [hc, unitName_four, String.append_assoc]
    congr 1

/-- Witness for C6 at the concrete input 1024^4. -/
theorem c6_format_bytes_values_witness :
    format_bytes ((1024:ℚ) ^ 4) = fmt1 (((1024:ℚ) ^ 4) / 1024 ^ 4) ++ " TB" :=
  c6_format_bytes_values.2.2.2 (1024 ^ 4) (le_refl _)

/-- C7: the unit selected by format_bytes is monotone in the input: for
nonnegative byte counts a ≤ b the unit index of a is at most that of b,
where the index orders B < KB < MB < GB < TB and is related to the output
of format_bytes by the stated characterization. -/
theorem c7_format_bytes_unit_monotone :
    ∀ a b : ℚ, 0 ≤ a → a ≤ b →
      bytesUnit a ≤ bytesUnit b ∧
      format_bytes a = fmt1 (a / 1024 ^ bytesUnit a) ++ " " ++ unitName (bytesUnit a) ∧
      format_bytes b = fmt1 (b / 1024 ^ bytesUnit b) ++ " " ++ unitName (bytesUnit b) := by
  intro a b _ha hab
  exact ⟨bytesUnit_mono hab, formatBytes_char a, formatBytes_char b⟩

/-- Witness for C7 at the concrete inputs 0 and 1024. -/
theorem c7_format_bytes_unit_monotone_witness :
    bytesUnit 0 ≤ bytesUnit 1024 ∧
      format_bytes 0 = fmt1 (0 / 1024 ^ bytesUnit 0) ++ " " ++ unitName (bytesUnit 0) ∧
      format_bytes 1024 =
        fmt1 (1024 / 1024 ^ bytesUnit 1024) ++ " " ++ unitName (bytesUnit 1024) :=
  c7_format_bytes_unit_monotone 0 1024 (le_refl 0) (by norm_num)

/-- C8: format_uptime maps 0 to "0s" and 90061 to "1d 1h 1m 1s"; and on
every nonnegative duration the parts list contains a part per unit exactly
when that unit's value is positive, except that when all units are zero the
output is the single part "0s". -/
theorem c8_format_uptime_values :
    format_uptime 0 = "0s" ∧ format_uptime 90061 = "1d 1h 1m 1s" ∧
      ∀ d h m s : ℤ, 0 ≤ d → 0 ≤ h → h < 24 → 0 ≤ m → m < 60 → 0 ≤ s → s < 60 →
        format_uptime ((d * 86400 + h * 3600 + m * 60 + s : ℤ) : ℚ) =
            " ".intercalate (uptimePartsSpec d h m s) ∧
          uptimeParts (d * 86400 + h * 3600 + m * 60 + s) = uptimePartsSpec d h m s := by
  refine ⟨by decide, by decide, ?_⟩
  intro d h m s hd hh hh24 hm hm60 hs hs60
  have e1 : Int.fdiv (d * 86400 + h * 3600 + m * 60 + s) 86400 = d := by
    rw [Int.fdiv_eq_ediv _ (by norm_num)]
    omega
  have e2 : Int.fmod (d * 86400 + h * 3600 + m * 60 + s) 86400 = h * 3600 + m * 60 + s := by
    rw [Int.fmod_eq_emod _ (by norm_num)]
    omega
  have e3 : Int.fdiv (h * 3600 + m * 60 + s) 3600 = h := by
    rw [Int.fdiv_eq_ediv _ (by norm_num)]
    omega
  have e4 : Int.fmod (h * 3600 + m * 60 + s) 3600 = m * 60 + s := by
    rw [Int.fmod_eq_emod _ (by norm_num)]
    omega
  have e5 : Int.fdiv (m * 60 + s) 60 = m := by
    rw [Int.fdiv_eq_ediv _ (by norm_num)]
    omega
  have e6 : Int.fmod (m * 60 + s) 60 = s := by
    rw [Int.fmod_eq_emod _ (by norm_num)]
    omega
  have key : uptimeParts (d * 86400 + h * 3600 + m * 60 + s) = uptimePartsSpec d h m s := by
    simp only [uptimeParts, uptimePartsSpec]
    rw [e1, e2, e3, e4, e5, e6]
  have hn : (0:ℤ) ≤ d * 86400 + h * 3600 + m * 60 + s := by omega
  have hp : pyInt ((d * 86400 + h * 3600 + m * 60 + s : ℤ) : ℚ) =
      d * 86400 + h * 3600 + m * 60 + s := by
    unfold pyInt
    rw [if_pos (by exact_mod_cast hn), Int.floor_intCast]
  refine ⟨?_, key⟩
  unfold format_uptime
  rw [hp, key]

/-- Witness for C8 at the concrete decomposition 1d 1h 1m 1s. -/
theorem c8_format_uptime_values_witness :
    format_uptime ((1 * 86400 + 1 * 3600 + 1 * 60 + 1 : ℤ) : ℚ) =
        " ".intercalate (uptimePartsSpec 1 1 1 1) ∧
      uptimeParts (1 * 86400 + 1 * 3600 + 1 * 60 + 1) = uptimePartsSpec 1 1 1 1 :=
  c8_format_uptime_values.2.2 1 1 1 1 (by decide) (by decide) (by decide) (by decide)
    (by decide) (by decide) (by decide)

/-! ## Concrete sampling environments used by witnesses and counterexamples -/

/-- A Linux MetricsCollector (system drive "/"). -/
def mcLinux : MetricsCollector := MetricsCollector.init "Linux" none

/-- A fully healthy sampling instant with recognisable values. -/
def envBase : PsutilEnv where
  cpu_freq := Except.ok (some { current := 2400 })
  cpu_percent := Except.ok 50
  cpu_percent_percpu := Except.ok [50, 50]
  cpu_count_physical := Except.ok (some 4)
  cpu_count_logical := Except.ok (some 8)
  virtual_memory := Except.ok { total := 8589934592, available := 4294967296, percent := 40 }
  swap_memory := Except.ok { total := 1073741824, percent := 5 }
  disk_usage := Except.ok { total := 511101108224, percent := 60 }
  disk_io_counters := Except.ok (some { read_bytes := 1000, write_bytes := 2000 })
  net_io_counters := Except.ok { bytes_sent := 300, bytes_recv := 400, packets_sent := 3, packets_recv := 4 }
  pids_count := Except.ok 200
  proc_cpu_percent := Except.ok 1
  proc_memory_percent := Except.ok 2
  proc_thread_count := Except.ok 5
  boot_time := Except.ok 1700000000
  now := 1700090061
  platform_platform := Except.ok "Linux-6.1"
  platform_node := Except.ok "host"

/-- The same instant with only the disk-usage query raising. -/
def envDiskFail : PsutilEnv := { envBase with disk_usage := Except.error "disk fail" }

/-- A sampling instant in which every query raises. -/
def envAllFail : PsutilEnv where
  cpu_freq := Except.error "boom"
  cpu_percent := Except.error "boom"
  cpu_percent_percpu := Except.error "boom"
  cpu_count_physical := Except.error "boom"
  cpu_count_logical := Except.error "boom"
  virtual_memory := Except.error "boom"
  swap_memory := Except.error "boom"
  disk_usage := Except.error "boom"
  disk_io_counters := Except.error "boom"
  net_io_counters := Except.error "boom"
  pids_count := Except.error "boom"
  proc_cpu_percent := Except.error "boom"
  proc_memory_percent := Except.error "boom"
  proc_thread_count := Except.error "boom"
  boot_time := Except.error "boom"
  now := 1234
  platform_platform := Except.error "boom"
  platform_node := Except.error "boom"

/-- C1 counterexample: at a sampling instant where only the disk-usage query
raises (the CPU query returns 50 and the memory query returns 40), the quick
sample returns (0, 0, 0): the CPU and memory components are blanked out, not
left at their available values, contradicting the claim for quick samples. -/
theorem c1_quick_sample_counterexample :
    MetricsCollector.get_quick_metrics mcLinux envDiskFail = (0, 0, 0) ∧
      envDiskFail.cpu_percent = Except.ok 50 ∧
      envDiskFail.virtual_memory =
        Except.ok { total := 8589934592, available := 4294967296, percent := 40 } ∧
      queryFails envDiskFail.disk_usage ∧
      (MetricsCollector.get_quick_metrics mcLinux envDiskFail).1 ≠ 50 := by
  refine ⟨rfl, rfl, rfl, ⟨"disk fail", rfl⟩, ?_⟩
  decide

/-- C1 amended: each of the six per-category getters reads only its own
category's queries, so a failure in one category leaves every other getter's
record unaffected, and a disk failure defaults the disk record only; the
quick sample, however, shares one exception handler across its three
queries, so a disk-usage failure there yields (0.0, 0.0, 0.0) — all three
values, not just the disk value. -/
theorem c1_partial_failure_isolation :
    (∀ (c : MetricsCollector) (env env' : PsutilEnv),
      env.cpu_freq = env'.cpu_freq → env.cpu_percent = env'.cpu_percent →
      env.cpu_percent_percpu = env'.cpu_percent_percpu →
      env.cpu_count_physical = env'.cpu_count_physical →
      env.cpu_count_logical = env'.cpu_count_logical →
      MetricsCollector.get_cpu_metrics c env = MetricsCollector.get_cpu_metrics c env') ∧
    (∀ (c : MetricsCollector) (env env' : PsutilEnv),
      env.virtual_memory = env'.virtual_memory → env.swap_memory = env'.swap_memory →
      MetricsCollector.get_memory_metrics c env = MetricsCollector.get_memory_metrics c env') ∧
    (∀ (c : MetricsCollector) (env env' : PsutilEnv),
      env.disk_usage = env'.disk_usage → env.disk_io_counters = env'.disk_io_counters →
      MetricsCollector.get_disk_metrics c env = MetricsCollector.get_disk_metrics c env') ∧
    (∀ (c : MetricsCollector) (env env' : PsutilEnv),
      env.net_io_counters = env'.net_io_counters →
      MetricsCollector.get_network_metrics c env = MetricsCollector.get_network_metrics c env') ∧
    (∀ (c : MetricsCollector) (env env' : PsutilEnv),
      env.pids_count = env'.pids_count → env.proc_cpu_percent = env'.proc_cpu_percent →
      env.proc_memory_percent = env'.proc_memory_percent →
      env.proc_thread_count = env'.proc_thread_count →
      MetricsCollector.get_process_metrics c env = MetricsCollector.get_process_metrics c env') ∧
    (∀ (c : MetricsCollector) (env env' : PsutilEnv),
      env.boot_time = env'.boot_time → env.now = env'.now →
      env.platform_platform = env'.platform_platform →
      env.platform_node = env'.platform_node →
      MetricsCollector.get_system_info c env = MetricsCollector.get_system_info c env') ∧
    (∀ (c : MetricsCollector) (env : PsutilEnv) (e : String),
      MetricsCollector.get_disk_metrics c { env with disk_usage := Except.error e } =
        { total_bytes := 0, used_percent := 0, read_bytes := 0, write_bytes := 0
          mount_point := c.system_drive }) ∧
    (∀ (c : MetricsCollector) (env : PsutilEnv) (e : String),
      MetricsCollector.get_quick_metrics c { env with disk_usage := Except.error e } =
        (0, 0, 0)) := by
  refine ⟨?_, ?_, ?_, ?_, ?_, ?_, ?_, ?_⟩
  · intro c env env' h1 h2 h3 h4 h5
    unfold MetricsCollector.get_cpu_metrics
    rw [h1, h2, h3, h4, h5]
  · intro c env env' h1 h2
    unfold MetricsCollector.get_memory_metrics
    rw [h1, h2]
  · intro c env env' h1 h2
    unfold MetricsCollector.get_disk_metrics
    rw [h1, h2]
  · intro c env env' h1
    unfold MetricsCollector.get_network_metrics
    rw [h1]
  · intro c env env' h1 h2 h3 h4
    unfold MetricsCollector.get_process_metrics
    rw [h1, h2, h3, h4]
  · intro c env env' h1 h2 h3 h4
    unfold MetricsCollector.get_system_info
    rw [h1, h2, h3, h4]
  · intro c env e
    rfl
  · intro c env e
    rcases hp : env.cpu_percent with e' | p <;>
      rcases hv : env.virtual_memory with e' | v <;>
        simp [MetricsCollector.get_quick_metrics, hp, hv, Except.bind, bind]

/-- Witness for the C1 amended theorem: a disk-only failure leaves the CPU
getter's output unchanged. -/
theorem c1_partial_failure_isolation_witness :
    MetricsCollector.get_cpu_metrics mcLinux envDiskFail =
      MetricsCollector.get_cpu_metrics mcLinux envBase :=
  c1_partial_failure_isolation.1 mcLinux envDiskFail envBase rfl rfl rfl rfl rfl

/-- C5: every sampling operation of the MetricsCollector returns normally
for every outcome of the underlying OS queries; when any query of a
category raises, the operation returns that category's zeroed/defaulted
record (core counts default to 1, the disk mount point and the system-info
timestamp are preserved), and the quick sample returns (0.0, 0.0, 0.0). -/
theorem c5_collector_never_throws :
    ∀ (c : MetricsCollector) (env : PsutilEnv),
      (queryFails env.cpu_freq ∨ queryFails env.cpu_percent ∨
          queryFails env.cpu_percent_percpu ∨ queryFails env.cpu_count_physical ∨
          queryFails env.cpu_count_logical →
        MetricsCollector.get_cpu_metrics c env =
          { total_percent := 0, per_core_percent := [], frequency_mhz := 0
            core_count := 1, thread_count := 1 }) ∧
      (queryFails env.virtual_memory ∨ queryFails env.swap_memory →
        MetricsCollector.get_memory_metrics c env =
          { total_bytes := 0, available_bytes := 0, used_percent := 0
            swap_total_bytes := 0, swap_used_percent := 0 }) ∧
      (queryFails env.disk_usage ∨ queryFails env.disk_io_counters →
        MetricsCollector.get_disk_metrics c env =
          { total_bytes := 0, used_percent := 0, read_bytes := 0, write_bytes := 0
            mount_point := c.system_drive }) ∧
      (queryFails env.net_io_counters →
        MetricsCollector.get_network_metrics c env =
          { bytes_sent := 0, bytes_recv := 0, packets_sent := 0, packets_recv := 0 }) ∧
      (queryFails env.pids_count ∨ queryFails env.proc_cpu_percent ∨
          queryFails env.proc_memory_percent ∨ queryFails env.proc_thread_count →
        MetricsCollector.get_process_metrics c env =
          { total_processes := 0, current_cpu_percent := 0
            current_memory_percent := 0, current_threads := 0 }) ∧
      (queryFails env.boot_time ∨ queryFails env.platform_platform ∨
          queryFails env.platform_node →
        MetricsCollector.get_system_info c env =
          { boot_time := env.now, uptime_seconds := 0
            platform := "Unknown", hostname := "Unknown" }) ∧
      (queryFails env.cpu_percent ∨ queryFails env.virtual_memory ∨
          queryFails env.disk_usage →
        MetricsCollector.get_quick_metrics c env = (0, 0, 0)) := by
  intro c env
  refine ⟨?_, ?_, ?_, ?_, ?_, ?_, ?_⟩
  · intro h
    rcases h1 : env.cpu_freq with e | f <;>
      rcases h2 : env.cpu_percent with e | p <;>
        rcases h3 : env.cpu_percent_percpu with e | pc <;>
          rcases h4 : env.cpu_count_physical with e | ph <;>
            rcases h5 : env.cpu_count_logical with e | lo <;>
              simp_all [MetricsCollector.get_cpu_metrics, queryFails, Except.bind, bind]
  · intro h
    rcases h1 : env.virtual_memory with e | v <;>
      rcases h2 : env.swap_memory with e | s <;>
        simp_all [MetricsCollector.get_memory_metrics, queryFails, Except.bind, bind]
  · intro h
    rcases h1 : env.disk_usage with e | d <;>
      rcases h2 : env.disk_io_counters with e | dc <;>
        simp_all [MetricsCollector.get_disk_metrics, queryFails, Except.bind, bind]
  · intro h
    rcases h1 : env.net_io_counters with e | n <;>
      simp_all [MetricsCollector.get_network_metrics, queryFails, Except.bind, bind]
  · intro h
    rcases h1 : env.pids_count with e | pd <;>
      rcases h2 : env.proc_cpu_percent with e | pc <;>
        rcases h3 : env.proc_memory_percent with e | pm <;>
          rcases h4 : env.proc_thread_count with e | pt <;>
            simp_all [MetricsCollector.get_process_metrics, queryFails, Except.bind, bind]
  · intro h
    rcases h1 : env.boot_time with e | bt <;>
      rcases h2 : env.platform_platform with e | pp <;>
        rcases h3 : env.platform_node with e | pn <;>
          simp_all [MetricsCollector.get_system_info, queryFails, Except.bind, bind]
  · intro h
    rcases h1 : env.cpu_percent with e | p <;>
      rcases h2 : env.virtual_memory with e | v <;>
        rcases h3 : env.disk_usage with e | d <;>
          simp_all [MetricsCollector.get_quick_metrics, queryFails, Except.bind, bind]

/-- Witness for C5: at the all-failing sampling instant every operation
returns its documented default. -/
theorem c5_collector_never_throws_witness :
    MetricsCollector.get_cpu_metrics mcLinux envAllFail =
        { total_percent := 0, per_core_percent := [], frequency_mhz := 0
          core_count := 1, thread_count := 1 } ∧
      MetricsCollector.get_quick_metrics mcLinux envAllFail = (0, 0, 0) :=
  ⟨(c5_collector_never_throws mcLinux envAllFail).1 (Or.inl ⟨"boom", rfl⟩),
    (c5_collector_never_throws mcLinux envAllFail).2.2.2.2.2.2 (Or.inl ⟨"boom", rfl⟩)⟩

/-! ## The App Coordinator supervising loop (src/src/app.py, L3PApp.run)

The standard (non-Qt) branch of L3PApp.run: the tray runs on a background
thread, and the main thread loops — while the exit event is unset, wait up
to 100 ms on the show-profile event; when it fires, clear it, construct a
ProfileWindow and run it in place (blocking), then resume.  Environment
steps model the tray thread's menu callbacks and the signal handler, which
only ever set the two events. -/

/-- Program points of the supervising loop on the main thread. -/
inductive AppPC
  | guard
  | waitShow
  | clearShow
  | runProfile
  | cleanup
  | done
deriving DecidableEq

/-- Coordinator state: the loop's program point, the two threading.Event
flags, and instrumentation counting the ProfileWindow.run calls currently
active and ever started. -/
structure AppState where
  pc : AppPC
  showEv : Bool
  exitEv : Bool
  activeProfiles : ℕ
  startedRuns : ℕ
deriving DecidableEq

/-- Small-step transition relation of the supervising loop interleaved with
the event-setting environment.  The wait may time out even when the show
event is set (the set can land just after the wait returns), and the clear
erases any show request that arrived between the wait and the clear, as in
the source. -/
inductive AppStep : AppState → AppState → Prop
  | guardExit (s : AppState) : s.pc = .guard → s.exitEv = true →
      AppStep s { s with pc := .cleanup }
  | guardCont (s : AppState) : s.pc = .guard → s.exitEv = false →
      AppStep s { s with pc := .waitShow }
  | waitHit (s : AppState) : s.pc = .waitShow → s.showEv = true →
      AppStep s { s with pc := .clearShow }
  | waitTimeout (s : AppState) : s.pc = .waitShow →
      AppStep s { s with pc := .guard }
  | startRun (s : AppState) : s.pc = .clearShow →
      AppStep s { s with
        pc := .runProfile
        showEv := false
        activeProfiles := s.activeProfiles + 1
        startedRuns := s.startedRuns + 1 }
  | finishRun (s : AppState) : s.pc = .runProfile →
      AppStep s { s with pc := .guard, activeProfiles := s.activeProfiles - 1 }
  | stepCleanup (s : AppState) : s.pc = .cleanup →
      AppStep s { s with pc := .done }
  | envShow (s : AppState) : AppStep s { s with showEv := true }
  | envExit (s : AppState) : AppStep s { s with exitEv := true }

/-- Initial state of L3PApp.run's supervising loop. -/
def appInit : AppState :=
  { pc := .guard, showEv := false, exitEv := false
    activeProfiles := 0, startedRuns := 0 }

/-- Reachability from the initial state. -/
inductive AppReach : AppState → Prop
  | init : AppReach appInit
  | step {s t : AppState} : AppReach s → AppStep s t → AppReach t

/-- Invariant: a ProfileWindow.run call is active exactly when the loop is
inside the run-profile program point. -/
theorem appActive_inv {s : AppState} (h : AppReach s) :
    s.activeProfiles = (if s.pc = AppPC.runProfile then 1 else 0) := by
  induction h with
  | init => rfl
  | step hr hst ih => cases hst <;> simp_all

/-- C2: in every reachable coordinator state at most one ProfileWindow run
loop is active, and any step that starts a new ProfileWindow.run happens
only from a state with no active instance — a second show-profile request
is served only after the first run() has returned. -/
theorem c2_single_profile_instance :
    ∀ s : AppState, AppReach s →
      s.activeProfiles ≤ 1 ∧
      ∀ t : AppState, AppStep s t → t.startedRuns ≠ s.startedRuns →
        s.activeProfiles = 0 := by
  intro s hs
  have hinv := appActive_inv hs
  constructor
  · rw [hinv]
    split <;> norm_num
  · intro t hst hne
    cases hst <;> simp_all

/-- Witness for C2 at the initial state. -/
theorem c2_single_profile_instance_witness : appInit.activeProfiles ≤ 1 :=
  (c2_single_profile_instance appInit AppReach.init).1

/-- A reachable state of the supervising loop sitting at the clear-show
statement with both events set: the user clicked Show Profile and then Exit
while the loop was already inside its wait. -/
def raceClearShow : AppState :=
  { pc := .clearShow, showEv := true, exitEv := true
    activeProfiles := 0, startedRuns := 0 }

/-- The successor of that state: the loop has cleared the show event and
entered ProfileWindow.run although the exit event was already set. -/
def raceRunProfile : AppState :=
  { pc := .runProfile, showEv := false, exitEv := true
    activeProfiles := 1, startedRuns := 1 }

/-- C3 counterexample: the state raceClearShow is reachable, its exit event
is set, and yet the next loop step starts a show-profile service (a fresh
ProfileWindow.run): the exit event being set does not prevent one further
show-profile service when it lands between the guard and the wait. -/
theorem c3_exit_not_terminal_counterexample :
    AppReach raceClearShow ∧ raceClearShow.exitEv = true ∧
      AppStep raceClearShow raceRunProfile ∧
      raceRunProfile.startedRuns = raceClearShow.startedRuns + 1 ∧
      raceRunProfile.activeProfiles = 1 := by
  refine ⟨?_, rfl, ?_, rfl, rfl⟩
  · have h0 : AppReach appInit := AppReach.init
    have h1 : AppReach { appInit with pc := .waitShow } :=
      AppReach.step h0 (AppStep.guardCont _ rfl rfl)
    have h2 : AppReach { appInit with pc := .waitShow, showEv := true } :=
      AppReach.step h1 (AppStep.envShow _)
    have h3 : AppReach { appInit with pc := .waitShow, showEv := true, exitEv := true } :=
      AppReach.step h2 (AppStep.envExit _)
    exact AppReach.step h3 (AppStep.waitHit _ rfl rfl)
  · have h := AppStep.startRun raceClearShow rfl
    simpa [raceClearShow, raceRunProfile] using h

/-- C3 amended: the exit event, once set, is never cleared by any
coordinator step; every evaluation of the loop guard with the exit event
set leaves the loop toward cleanup; and once the loop is at the guard (or
past it, at cleanup or done) with the exit event set, no further
show-profile service ever starts.  Only the single show request whose wait
had already begun before exit was set can still be served, as the
counterexample exhibits. -/
theorem c3_exit_terminal_amended :
    (∀ s t : AppState, AppStep s t → s.exitEv = true → t.exitEv = true) ∧
    (∀ s t : AppState, AppStep s t → s.pc = AppPC.guard → s.exitEv = true →
      t.pc = AppPC.cleanup ∨ t.pc = AppPC.guard) ∧
    (∀ s t : AppState, AppStep s t → s.exitEv = true →
      (s.pc = AppPC.guard ∨ s.pc = AppPC.cleanup ∨ s.pc = AppPC.done) →
      (t.pc = AppPC.guard ∨ t.pc = AppPC.cleanup ∨ t.pc = AppPC.done) ∧
        t.startedRuns = s.startedRuns) := by
  refine ⟨?_, ?_, ?_⟩
  · intro s t hst hex
    cases hst <;> simp_all
  · intro s t hst hpc hex
    cases hst <;> simp_all
  · intro s t hst hex hpc
    cases hst <;> simp_all

/-- Witness for the C3 amended theorem: a concrete guard step with the exit
event set goes to cleanup, keeps the exit event, and starts nothing. -/
theorem c3_exit_terminal_amended_witness :
    ({ appInit with exitEv := true, pc := AppPC.cleanup } : AppState).exitEv = true ∧
      (({ appInit with exitEv := true, pc := AppPC.cleanup } : AppState).pc = AppPC.cleanup ∨
        ({ appInit with exitEv := true, pc := AppPC.cleanup } : AppState).pc = AppPC.guard) ∧
      ({ appInit with exitEv := true, pc := AppPC.cleanup } : AppState).startedRuns =
        ({ appInit with exitEv := true } : AppState).startedRuns :=
  ⟨c3_exit_terminal_amended.1 { appInit with exitEv := true } _
      (AppStep.guardExit _ rfl rfl) rfl,
    c3_exit_terminal_amended.2.1 { appInit with exitEv := true } _
      (AppStep.guardExit _ rfl rfl) rfl rfl,
    (c3_exit_terminal_amended.2.2 { appInit with exitEv := true } _
      (AppStep.guardExit _ rfl rfl) rfl (Or.inl rfl)).2⟩

/-! ## The Tray Surface refresh loop (src/src/tray.py, PystrayTrayIcon)

The _update_loop thread: an initial stop_event.wait(0.5), then — while the
stop event is unset — one body (quick sample, icon redraw, tooltip update;
exceptions inside the body are caught and logged) followed by a
stop_event.wait(1.0).  PystrayTrayIcon.stop sets the stop event and never
clears it. -/

/-- Program points of the tray refresh loop. -/
inductive TrayPC
  | initialWait
  | check
  | body
  | wait
  | done
deriving DecidableEq

/-- Refresh-loop state: the program point, the stop event, and the number of
iterations begun. -/
structure TrayState where
  pc : TrayPC
  stopEv : Bool
  iters : ℕ
deriving DecidableEq

/-- Loop steps of _update_loop.  Both suspensions are waits with a timeout
on the stop event, so each has an unconditional step: no suspension can
block past its tick. -/
inductive TrayLoopStep : TrayState → TrayState → Prop
  | initDone (s : TrayState) : s.pc = .initialWait →
      TrayLoopStep s { s with pc := .check }
  | checkStop (s : TrayState) : s.pc = .check → s.stopEv = true →
      TrayLoopStep s { s with pc := .done }
  | checkGo (s : TrayState) : s.pc = .check → s.stopEv = false →
      TrayLoopStep s { s with pc := .body, iters := s.iters + 1 }
  | bodyDone (s : TrayState) : s.pc = .body →
      TrayLoopStep s { s with pc := .wait }
  | waitDone (s : TrayState) : s.pc = .wait →
      TrayLoopStep s { s with pc := .check }

/-- A tray step is a loop step or the environment calling stop(), which only
sets the stop event. -/
inductive TrayStep : TrayState → TrayState → Prop
  | loopStep {s t : TrayState} : TrayLoopStep s t → TrayStep s t
  | envStop (s : TrayState) : TrayStep s { s with stopEv := true }

/-- Number of loop steps the refresh loop can still take once the stop event
is set. -/
def trayMeasure : TrayPC → ℕ
  | .body => 3
  | .wait => 2
  | .initialWait => 2
  | .check => 1
  | .done => 0

/-- C4: the tray refresh loop's suspensions never block (every non-done
state has a loop step); once the stop event is set no step clears it and no
step begins a new iteration; and every loop step taken with the stop event
set strictly decreases a measure bounded by 3, so the loop reaches its exit
within at most three further loop steps — at most the one iteration already
in flight, within one tick. -/
theorem c4_stop_within_one_tick :
    (∀ s : TrayState, s.pc ≠ TrayPC.done → ∃ t, TrayLoopStep s t) ∧
    (∀ s t : TrayState, TrayStep s t → s.stopEv = true →
      t.stopEv = true ∧ t.iters = s.iters) ∧
    (∀ s t : TrayState, TrayLoopStep s t → s.stopEv = true →
      trayMeasure t.pc < trayMeasure s.pc ∧ trayMeasure s.pc ≤ 3) := by
  refine ⟨?_, ?_, ?_⟩
  · intro s hpc
    cases h : s.pc
    case initialWait => exact ⟨_, TrayLoopStep.initDone s h⟩
    case check =>
      cases hs : s.stopEv
      case false => exact ⟨_, TrayLoopStep.checkGo s h hs⟩
      case true => exact ⟨_, TrayLoopStep.checkStop s h hs⟩
    case body => exact ⟨_, TrayLoopStep.bodyDone s h⟩
    case wait => exact ⟨_, TrayLoopStep.waitDone s h⟩
    case done => exact absurd h hpc
  · intro s t hst hs
    cases hst with
    | loopStep hl => cases hl <;> simp_all
    | envStop => simp_all
  · intro s t hl hs
    cases hl <;> simp_all [trayMeasure]

/-- Witness for C4 at a concrete stopped state: the check point still has a
step, and taking it reaches done with a smaller measure. -/
theorem c4_stop_within_one_tick_witness :
    (∃ t, TrayLoopStep { pc := TrayPC.check, stopEv := true, iters := 5 } t) ∧
      trayMeasure TrayPC.done < trayMeasure TrayPC.check := by
  constructor
  · exact c4_stop_within_one_tick.1 { pc := TrayPC.check, stopEv := true, iters := 5 }
      (by decide)
  · exact (c4_stop_within_one_tick.2.2 { pc := TrayPC.check, stopEv := true, iters := 5 }
      { pc := TrayPC.done, stopEv := true, iters := 5 }
      (TrayLoopStep.checkStop _ rfl rfl) rfl).1

/-! ## The Profile Surface (src/src/profile_window.py, ProfileWindow) -/

/-- ProfileWindow state: the user-adjustable refresh interval, the time of
the last widget refresh, and the cooperative running flag. -/
structure ProfileWindow where
  update_interval : ℚ
  last_update : ℚ
  running : Bool
deriving DecidableEq

/-- Embedding of ProfileWindow.__init__: interval 1.0, no update yet,
not running. -/
def ProfileWindow.initWindow : ProfileWindow :=
  { update_interval := 1, last_update := 0, running := false }

/-- Embedding of ProfileWindow.stop: set the running flag to False (the
dpg.stop_dearpygui call beside it is wrapped in try/except and leaves no
state of its own). -/
def ProfileWindow.stop (w : ProfileWindow) : ProfileWindow :=
  { w with running := false }

/-- Embedding of ProfileWindow._update_metrics at one frame: skipped when
the elapsed time since the last update is under the interval; otherwise the
widgets are refreshed and the update time recorded when every getter and
widget write succeeds (ok), while an exception leaves the state unchanged
(the handler swallows it and the loop continues). -/
def ProfileWindow.update_metrics (w : ProfileWindow) (now : ℚ) (ok : Bool) :
    ProfileWindow :=
  if now - w.last_update < w.update_interval then w
  else if ok then { w with last_update := now } else w

/-- The render loop of ProfileWindow.run: each frame is driven by an oracle
entry (is dearpygui still running, the frame's clock time, whether the
update succeeds); the loop renders while dearpygui is running and the
running flag holds, returning the number of frames rendered. -/
def ProfileWindow.renderFrames : ProfileWindow → List (Bool × ℚ × Bool) → ℕ
  | _, [] => 0
  | w, (dpgRunning, now, ok) :: rest =>
      if dpgRunning && w.running then
        1 + ProfileWindow.renderFrames (w.update_metrics now ok) rest
      else 0

/-- Embedding of ProfileWindow.run: the running flag is set to True at
entry, unconditionally, before the render loop begins. -/
def ProfileWindow.run (w : ProfileWindow) (frames : List (Bool × ℚ × Bool)) : ℕ :=
  ProfileWindow.renderFrames { w with running := true } frames

/-- C10: a stop() issued before run() has no effect: run() overwrites the
running flag with True at entry, so the run of a stopped window renders
exactly the frames the run of the untouched window renders, its entry state
is identical, and with dearpygui up it does enter its render loop. -/
theorem c10_stop_before_run_no_effect :
    ∀ (w : ProfileWindow) (frames : List (Bool × ℚ × Bool)),
      (ProfileWindow.stop w).run frames = w.run frames ∧
      ({ ProfileWindow.stop w with running := true } : ProfileWindow) =
        { w with running := true } ∧
      (ProfileWindow.stop w).run [(true, 0, true)] = 1 := by
  intro w frames
  refine ⟨rfl, rfl, rfl⟩

/-! ## The CLI entry point (src/src/__main__.py and src/src/version.py) -/

/-- Parsed command-line flags of the l3p entry command. -/
structure Args where
  tray_only : Bool
  profile_only : Bool
  version : Bool
deriving DecidableEq

/-- Outcome of the dispatched run (run_tray_only, run_profile_only or
L3PApp.run): normal return, a KeyboardInterrupt, or an unhandled exception
with its message. -/
inductive RunOutcome
  | normal
  | interrupted
  | raised (msg : String)
deriving DecidableEq

/-- Observable result of main: the exit code and the lines written to the
two output streams, plus whether the app modules were dispatched at all. -/
structure MainResult where
  exitCode : ℤ
  stdout : List String
  stderr : List String
  ranApp : Bool
deriving DecidableEq

/-- Embedding of get_version from src/src/version.py: the base version with
a dev prefix outside frozen executables. -/
def get_version (frozen : Bool) : String :=
  if frozen then "2.0.0" else "dev-" ++ "2.0.0"

/-- BUILD_DATE from src/src/version.py. -/
def BUILD_DATE : String := "2026-01-12"

/-- The line the version flag prints. -/
def versionLine (frozen : Bool) : String :=
  "L3P v" ++ get_version frozen ++ " (built " ++ BUILD_DATE ++ ")"

namespace L3P

/-- Embedding of main from src/src/__main__.py: with the version flag, print
the version line and return 0 before importing or running anything else;
otherwise dispatch and map the outcome — 0 on normal return, 0 on
KeyboardInterrupt, and on any other exception print the error to stderr and
return 1. -/
def main (args : Args) (frozen : Bool) (outcome : RunOutcome) : MainResult :=
  if args.version then
    { exitCode := 0, stdout := [versionLine frozen], stderr := [], ranApp := false }
  else
    match outcome with
    | .normal => { exitCode := 0, stdout := [], stderr := [], ranApp := true }
    | .interrupted => { exitCode := 0, stdout := [], stderr := [], ranApp := true }
    | .raised m =>
        { exitCode := 1, stdout := [], stderr := ["Error: " ++ m], ranApp := true }

end L3P

/-- C9: the CLI exit-code contract: the version flag prints the version line
and returns 0 without dispatching the app; a normal or interrupted run
returns 0; an unhandled error returns 1 with the error message on the
standard error stream. -/
theorem c9_cli_exit_codes :
    ∀ (args : Args) (frozen : Bool) (outcome : RunOutcome),
      (args.version = true →
        L3P.main args frozen outcome =
          { exitCode := 0, stdout := [versionLine frozen], stderr := []
            ranApp := false }) ∧
      (args.version = false → outcome = RunOutcome.normal →
        L3P.main args frozen outcome =
          { exitCode := 0, stdout := [], stderr := [], ranApp := true }) ∧
      (args.version = false → outcome = RunOutcome.interrupted →
        L3P.main args frozen outcome =
          { exitCode := 0, stdout := [], stderr := [], ranApp := true }) ∧
      (∀ m : String, args.version = false → outcome = RunOutcome.raised m →
        (L3P.main args frozen outcome).exitCode = 1 ∧
          (L3P.main args frozen outcome).stderr = ["Error: " ++ m]) := by
  intro args frozen outcome
  refine ⟨?_, ?_, ?_, ?_⟩
  · intro hv
    simp [L3P.main, hv]
  · intro hv ho
    simp [L3P.main, hv, ho]
  · intro hv ho
    simp [L3P.main, hv, ho]
  · intro m hv ho
    simp [L3P.main, hv, ho]

/-- Witness for C9: the version flag returns 0 without dispatch, and a
raised error returns 1. -/
theorem c9_cli_exit_codes_witness :
    L3P.main { tray_only := false, profile_only := false, version := true } false
        RunOutcome.normal =
      { exitCode := 0, stdout := [versionLine false], stderr := [], ranApp := false } ∧
      (L3P.main { tray_only := false, profile_only := false, version := false } false
          (RunOutcome.raised "oops")).exitCode = 1 :=
  ⟨(c9_cli_exit_codes { tray_only := false, profile_only := false, version := true }
      false RunOutcome.normal).1 rfl,
    ((c9_cli_exit_codes { tray_only := false, profile_only := false, version := false }
      false (RunOutcome.raised "oops")).2.2.2 "oops" rfl rfl).1⟩
